import Mathlib

/-!
Verification development for the shac_sim spatial-audio simulator.

The JavaScript sources are shallowly embedded here:

* `SpatialAudioEngine` (src/js/audio-engine.js): the scene model holding the
  listener position and the map of sources.  The JS `Map` iterated in
  insertion order is modelled as a `List` of sources keyed by `Src.id`;
  numeric coordinates are modelled as exact rationals, since every operation
  of the engine is linear.  Audio-node handles (buffer source, gain, panner)
  are modelled as Booleans recording whether the node exists.
* `MovementController` (same file): position integration uses `sin`, `cos`
  and `sqrt`, so it is embedded over the reals; the orientation updates are
  linear and are embedded over the rationals.
* `Visualization` (src/js/visualization.js): the screen projection and the
  drag inverse are linear and embedded over the rationals; the azimuth
  computation for FOV culling uses `Math.atan2` and is embedded over the
  reals.
* `SourceManager` (unnamed UI file): the coordinate-entry handler is
  embedded with the results of the three `parseFloat` calls abstracted as
  `Option` values (`none` models `NaN`).
-/

/-- A 3-component vector, the shape of the position objects `{x, y, z}`. -/
structure Vec3 (R : Type) where
  x : R
  y : R
  z : R
deriving DecidableEq, Repr

/-- One entry of `SpatialAudioEngine.sources`, as built by `createSource`
(src/js/audio-engine.js lines 67-87).  The decoded audio buffer is opaque
external data and is modelled as `Unit`; the audio-node references `node`,
`panner` and `gainNode` are modelled as Booleans recording whether the
node is present (`false` models the JS value `null`). -/
structure Src where
  id : Nat
  name : String
  buffer : Unit
  position : Vec3 ℚ
  volume : ℚ
  locked : Bool
  node : Bool
  panner : Bool
  gainNode : Bool
  isPlaying : Bool
deriving DecidableEq, Repr

/-- `SpatialAudioEngine` state (constructor, src/js/audio-engine.js lines
12-20).  `sources` is the JS `Map` in insertion order. -/
structure Engine where
  listener : Vec3 ℚ
  sources : List Src
  isPlaying : Bool
  nextSourceId : Nat
deriving DecidableEq, Repr

namespace Engine

/-- The engine as constructed: listener at the origin, no sources,
`nextSourceId = 1`. -/
def init : Engine := ⟨⟨0, 0, 0⟩, [], false, 1⟩

/-- `this.sources.get(sourceId)`: the source stored under a given id. -/
def findSource (e : Engine) (sourceId : Nat) : Option Src :=
  e.sources.find? (fun s => s.id == sourceId)

/-- `createSource(audioBuffer, name, position)` (lines 67-87): allocates
`nextSourceId`, post-increments it, and inserts a fresh unlocked source
with volume 1 and no audio nodes.  Returns the new state and the id. -/
def createSource (e : Engine) (buffer : Unit) (name : String) (position : Vec3 ℚ) :
    Engine × Nat :=
  let sourceId := e.nextSourceId
  let s : Src := ⟨sourceId, name, buffer, position, 1, false, false, false, false, false⟩
  ({ e with sources := e.sources ++ [s], nextSourceId := sourceId + 1 }, sourceId)

/-- `stopSource(sourceId)` (lines 165-179): returns unchanged when the id is
unknown or no buffer-source node is active; otherwise clears `node`,
`gainNode`, `panner` and `isPlaying` on that source. -/
def stopSource (e : Engine) (sourceId : Nat) : Engine :=
  match e.findSource sourceId with
  | none => e
  | some s =>
      if s.node = false then e
      else
        { e with
          sources := e.sources.map (fun t =>
            if t.id == sourceId then
              { t with node := false, gainNode := false, panner := false, isPlaying := false }
            else t) }

/-- `removeSource(sourceId)` (lines 92-98): unknown id is a no-op; otherwise
it first calls `stopSource` and only then deletes the map entry. -/
def removeSource (e : Engine) (sourceId : Nat) : Engine :=
  match e.findSource sourceId with
  | none => e
  | some _ =>
      let e2 := e.stopSource sourceId
      { e2 with sources := e2.sources.filter (fun s => !(s.id == sourceId)) }

/-- `setSourcePosition(sourceId, position)` (lines 224-234): unknown id is a
no-op; otherwise the stored position is overwritten with a copy of the
argument.  The source observes no `locked` check here. -/
def setSourcePosition (e : Engine) (sourceId : Nat) (position : Vec3 ℚ) : Engine :=
  match e.findSource sourceId with
  | none => e
  | some _ =>
      { e with
        sources := e.sources.map (fun t =>
          if t.id == sourceId then { t with position := position } else t) }

/-- The body of `updateSourcePosition(panner, sourcePosition)` (lines
289-304): the offset written to a panner is the source position minus the
listener position, componentwise. -/
def relOffset (listener position : Vec3 ℚ) : Vec3 ℚ :=
  ⟨position.x - listener.x, position.y - listener.y, position.z - listener.z⟩

/-- `updateListenerPosition(position)` (lines 239-248): stores the new
listener position, then rewrites the panner offset of every source whose
panner node is present.  The result pairs the new state with the list of
`(sourceId, offset)` panner writes that the call issues. -/
def updateListenerPosition (e : Engine) (position : Vec3 ℚ) :
    Engine × List (Nat × Vec3 ℚ) :=
  let e2 := { e with listener := position }
  (e2, (e2.sources.filter (·.panner)).map (fun s => (s.id, relOffset e2.listener s.position)))

/-- `getSources()` (lines 344-346): the sources in map order. -/
def getSources (e : Engine) : List Src := e.sources

end Engine

/-- `viewMode` of the visualization: the strings `topdown` and
`firstperson`. -/
inductive ViewMode where
  | topdown
  | firstperson
deriving DecidableEq, Repr

/-- `Visualization` state (constructor, src/js/visualization.js lines
14-39): `scale = 20`, `viewMode = topdown`, `compositionMode = true`;
`centerX`/`centerY` are set by `resize`, and `playerPos` is the player
position stored by the latest `render` call for hit detection. -/
structure Viz where
  scale : ℚ
  centerX : ℚ
  centerY : ℚ
  viewMode : ViewMode
  compositionMode : Bool
  playerPos : Vec3 ℚ
deriving DecidableEq, Repr

namespace Viz

/-- The read of `this.positionsLocked` in `drawSource`
(src/js/visualization.js line 312).  No statement anywhere in the
repository ever assigns this property, so the JS read always yields
`undefined`, which is falsy; the read is therefore modelled as the
constant `false`. -/
def positionsLockedRead (_ : Viz) : Bool := false

/-- The screen position of a world point as computed by the hit test in
`onMouseDown` (src/js/visualization.js lines 64-74): composition mode
projects the absolute position, authoring mode first subtracts the player
position; in both, `screenX = centerX + x * scale` and
`screenY = centerY - z * scale`. -/
def worldToScreen (v : Viz) (p : Vec3 ℚ) : ℚ × ℚ :=
  if v.compositionMode then
    (v.centerX + p.x * v.scale, v.centerY - p.z * v.scale)
  else
    (v.centerX + (p.x - v.playerPos.x) * v.scale, v.centerY - (p.z - v.playerPos.z) * v.scale)

/-- The world position computed by the drag handler in `onMouseMove`
(src/js/visualization.js lines 101-117): the drag offset is subtracted
from the mouse point, the projection is inverted for the current mode, and
the y coordinate of the dragged source is passed through as `yKeep`. -/
def dragWorldPos (v : Viz) (mouseX mouseY offX offY yKeep : ℚ) : Vec3 ℚ :=
  if v.compositionMode then
    ⟨((mouseX - offX) - v.centerX) / v.scale, yKeep,
      -((mouseY - offY) - v.centerY) / v.scale⟩
  else
    ⟨((mouseX - offX) - v.centerX) / v.scale + v.playerPos.x, yKeep,
      -((mouseY - offY) - v.centerY) / v.scale + v.playerPos.z⟩

/-- The distance test of the hit loop in `onMouseDown` (src/js/visualization.js
lines 76-81).  The source compares `Math.sqrt(dx*dx + dy*dy) < 30`; the
equivalent squared comparison `dx*dx + dy*dy < 900` is used so the test
stays decidable over the rationals. -/
def withinPickRadius (v : Viz) (mouseX mouseY : ℚ) (s : Src) : Bool :=
  let sp := v.worldToScreen s.position
  let dx := mouseX - sp.1
  let dy := mouseY - sp.2
  decide (dx * dx + dy * dy < 900)

/-- The source selected by the `onMouseDown` hit loop (src/js/visualization.js
lines 60-88): the first source that is not locked and whose screen position
is within the pick radius of the mouse point (`continue` skips locked
sources, `break` stops at the first hit). -/
def findDragTarget (v : Viz) (sources : List Src) (mouseX mouseY : ℚ) : Option Src :=
  sources.find? (fun s => !s.locked && v.withinPickRadius mouseX mouseY s)

/-- `toggleCompositionMode()` (src/js/visualization.js lines 171-174):
flips the flag and nothing else. -/
def toggleCompositionMode (v : Viz) : Viz :=
  { v with compositionMode := !v.compositionMode }

/-- The FOV-culling guard of `drawSource` (src/js/visualization.js line
312): the test that the view mode equals `firstperson` and the falsy
`positionsLocked` read. -/
def fovCullingActive (v : Viz) : Bool :=
  (v.viewMode == ViewMode.firstperson) && !(v.positionsLockedRead)

end Viz

/-- The application state relevant to the reference-frame mode: the audio
engine plus the visualization (app.js wires one of each together). -/
structure App where
  engine : Engine
  viz : Viz
deriving DecidableEq, Repr

/-- The mode-toggle button handler (app.js lines 125-136) calls
`visualization.toggleCompositionMode()` and only updates UI text; the
engine is untouched. -/
def App.toggleCompositionMode (a : App) : App :=
  { a with viz := a.viz.toggleCompositionMode }

/-- The relative offset the engine feeds to the spatializer for a source
position: `updateSourcePosition(panner, sourcePosition)` subtracts the true
listener position (src/js/audio-engine.js lines 289-304). -/
def App.spatializerOffset (a : App) (position : Vec3 ℚ) : Vec3 ℚ :=
  Engine.relOffset a.engine.listener position

/-- The orientation state of `MovementController`: `playerFacing` (yaw in
degrees, 0 at construction) and `playerPitch` (degrees, 0 at
construction). -/
structure Orient where
  facing : ℚ
  pitch : ℚ
deriving DecidableEq, Repr

/-- `this.mouseLook.sensitivity` (src/js/audio-engine.js line 416): 0.2
degrees per pixel. -/
def mouseSensitivity : ℚ := 0.2

/-- `handleMouseMove` under pointer lock (src/js/audio-engine.js lines
515-538): yaw gains `deltaX * sensitivity` and is adjusted once by +360 if
negative and once by -360 if at least 360; pitch loses
`deltaY * sensitivity` and is clamped to [-90, 90] by
`Math.max(-90, Math.min(90, pitch))`. -/
def handleMouseMove (o : Orient) (deltaX deltaY : ℚ) : Orient :=
  let f1 := o.facing + deltaX * mouseSensitivity
  let f2 := if f1 < 0 then f1 + 360 else f1
  let f3 := if f2 ≥ 360 then f2 - 360 else f2
  let p1 := o.pitch - deltaY * mouseSensitivity
  ⟨f3, max (-90) (min 90 p1)⟩

/-- The right-stick branch of `updateGamepad` (src/js/audio-engine.js lines
558-572): yaw gains `rx * 3.0` with no wrapping; pitch loses `ry * 3.0`
and is clamped to [-89, 89] by `Math.max(-89, Math.min(89, pitch))`. -/
def gamepadLook (o : Orient) (rx ry : ℚ) : Orient :=
  ⟨o.facing + rx * 3, max (-89) (min 89 (o.pitch - ry * 3))⟩

/-- `SourceManager.updateSourcePosition(sourceId)` (unnamed UI file, lines
117-159), with the three `parseFloat` results abstracted as `Option ℚ`
(`none` models `NaN`).  Unknown source: return with no alert.  If any axis
failed to parse, an alert is shown and the engine is untouched; otherwise
one `setSourcePosition` call writes all three axes.  The Boolean of the
result records whether the alert was shown. -/
def submitSourceCoordinates (e : Engine) (sourceId : Nat) (px py pz : Option ℚ) :
    Engine × Bool :=
  match e.findSource sourceId with
  | none => (e, false)
  | some _ =>
      match px, py, pz with
      | some x, some y, some z => (e.setSourcePosition sourceId ⟨x, y, z⟩, false)
      | _, _, _ => (e, true)

/-- `this.movementRadius` (src/js/audio-engine.js line 406): 50.0. -/
def movementRadius : ℝ := 50

/-- The distance-from-origin computation of `movePlayer`
(src/js/audio-engine.js lines 621-625): `sqrt(x*x + y*y + z*z)`. -/
noncomputable def mag (p : Vec3 ℝ) : ℝ :=
  Real.sqrt (p.x * p.x + p.y * p.y + p.z * p.z)

/-- The pre-clamp position of `movePlayer(dx, dy, dz)` (src/js/audio-engine.js
lines 595-618): the view-relative delta is rotated into world space by the
yaw (`worldDx = dz*sin + dx*cos`, `worldDz = dz*cos - dx*sin`, `worldDy =
dy`) and added to the player position. -/
noncomputable def preMove (playerFacing : ℝ) (p : Vec3 ℝ) (dx dy dz : ℝ) : Vec3 ℝ :=
  let azimuthRad := playerFacing * (Real.pi / 180)
  let worldDx := dz * Real.sin azimuthRad + dx * Real.cos azimuthRad
  let worldDz := dz * Real.cos azimuthRad - dx * Real.sin azimuthRad
  let worldDy := dy
  ⟨p.x + worldDx, p.y + worldDy, p.z + worldDz⟩

/-- `movePlayer(dx, dy, dz)` (src/js/audio-engine.js lines 595-637): after
integrating the rotated delta, if the distance from the origin exceeds the
movement radius, every component is multiplied by
`movementRadius / distanceFromOrigin`. -/
noncomputable def movePlayer (playerFacing : ℝ) (p : Vec3 ℝ) (dx dy dz : ℝ) : Vec3 ℝ :=
  let q := preMove playerFacing p dx dy dz
  let distanceFromOrigin := mag q
  if movementRadius < distanceFromOrigin then
    let scale := movementRadius / distanceFromOrigin
    ⟨q.x * scale, q.y * scale, q.z * scale⟩
  else q

/-- `Math.atan2(y, x)` on non-NaN inputs, as used by `drawSource`
(src/js/visualization.js line 314): the angle in (-pi, pi] of the point
`(x, y)`, with `atan2(0, 0) = 0`. -/
noncomputable def atan2 (y x : ℝ) : ℝ :=
  if 0 < x then Real.arctan (y / x)
  else if x < 0 then
    if 0 ≤ y then Real.arctan (y / x) + Real.pi
    else Real.arctan (y / x) - Real.pi
  else if 0 < y then Real.pi / 2
  else if y < 0 then -(Real.pi / 2)
  else 0

/-- The first normalization loop of `drawSource` (src/js/visualization.js
line 320): `while (azimuth > 180) azimuth -= 360`. -/
noncomputable def wrapHigh (az : ℝ) : ℝ :=
  if h : 180 < az then wrapHigh (az - 360) else az
termination_by (⌈(az - 180) / 360⌉).toNat
decreasing_by
  have h1 : (az - 360 - 180) / 360 = (az - 180) / 360 - 1 := by ring
  have h2 : (0 : ℝ) < (az - 180) / 360 := div_pos (by linarith) (by norm_num)
  have h3 : 0 < ⌈(az - 180) / 360⌉ := Int.ceil_pos.mpr h2
  rw [h1, Int.ceil_sub_one]
  omega

/-- The second normalization loop of `drawSource` (src/js/visualization.js
line 321): `while (azimuth < -180) azimuth += 360`. -/
noncomputable def wrapLow (az : ℝ) : ℝ :=
  if h : az < -180 then wrapLow (az + 360) else az
termination_by (⌈(-180 - az) / 360⌉).toNat
decreasing_by
  have h1 : (-180 - (az + 360)) / 360 = (-180 - az) / 360 - 1 := by ring
  have h2 : (0 : ℝ) < (-180 - az) / 360 := div_pos (by linarith) (by norm_num)
  have h3 : 0 < ⌈(-180 - az) / 360⌉ := Int.ceil_pos.mpr h2
  rw [h1, Int.ceil_sub_one]
  omega

/-- The view-relative azimuth computed by `drawSource`
(src/js/visualization.js lines 313-321): `atan2(relativeX, relativeZ)`
converted to degrees, minus `playerFacing`, then the two wrap loops. -/
noncomputable def azimuthDeg (relativeX relativeZ playerFacing : ℝ) : ℝ :=
  wrapLow (wrapHigh (atan2 relativeX relativeZ * (180 / Real.pi) - playerFacing))

/-- The FOV rejection test of `drawSource` (src/js/visualization.js line
324): the source is culled when `Math.abs(azimuth) > 90`. -/
def fovCulls (azimuth : ℝ) : Prop := 90 < |azimuth|

/-- Azimuth-culling of a source relative to the player, exactly when the
`drawSource` guard (line 312) is active and the rejection test fires. -/
def azimuthCulled (v : Viz) (relativeX relativeZ playerFacing : ℝ) : Prop :=
  v.fovCullingActive = true ∧ fovCulls (azimuthDeg relativeX relativeZ playerFacing)

/-- A scene operation of the kind claim C10 quantifies over: a
`createSource` call (the buffer argument is opaque) or a `removeSource`
call. -/
inductive SceneOp where
  | create (name : String) (position : Vec3 ℚ)
  | remove (sourceId : Nat)
deriving DecidableEq, Repr

/-- Runs a sequence of scene operations on an engine state, collecting the
ids returned by the `createSource` calls in order. -/
def runOps : Engine → List SceneOp → Engine × List Nat
  | e, [] => (e, [])
  | e, SceneOp.create n p :: rest =>
      let r := e.createSource () n p
      let rr := runOps r.1 rest
      (rr.1, r.2 :: rr.2)
  | e, SceneOp.remove sourceId :: rest => runOps (e.removeSource sourceId) rest

/-- Runs a sequence of `movePlayer` calls, each given as
`(playerFacing, (dx, dy, dz))`, from a starting player position. -/
noncomputable def runMoves : Vec3 ℝ → List (ℝ × ℝ × ℝ × ℝ) → Vec3 ℝ
  | p, [] => p
  | p, m :: rest => runMoves (movePlayer m.1 p m.2.1 m.2.2.1 m.2.2.2) rest

/-- A locked source fixture: id 1, position at the origin, no audio
nodes. -/
def lockedSrc : Src := ⟨1, "track", (), ⟨0, 0, 0⟩, 1, true, false, false, false, false⟩

/-- An engine holding only `lockedSrc`. -/
def lockedEngine : Engine := ⟨⟨0, 0, 0⟩, [lockedSrc], false, 2⟩

/-- A playing source fixture: id 1, active audio route. -/
def playingSrc : Src := ⟨1, "track", (), ⟨1, 0, 0⟩, 1, false, true, true, true, true⟩

/-- An engine holding only `playingSrc`. -/
def playingEngine : Engine := ⟨⟨0, 0, 0⟩, [playingSrc], true, 2⟩

/-- A visualization fixture in first-person view and authoring mode. -/
def fpAuthoringViz : Viz := ⟨20, 400, 300, ViewMode.firstperson, false, ⟨0, 0, 0⟩⟩

/-- A visualization fixture in top-down view and composition mode. -/
def topdownViz : Viz := ⟨20, 400, 300, ViewMode.topdown, true, ⟨0, 0, 0⟩⟩

namespace Helpers

/-- `find?` over an id-keyed update map: if a source is found under an id
and the update preserves ids, the updated list finds the updated source. -/
theorem find?_update (l : List Src) (sourceId : Nat) (f : Src → Src)
    (hf : ∀ t, (f t).id = t.id) (s : Src)
    (h : l.find? (fun t => t.id == sourceId) = some s) :
    (l.map (fun t => if t.id == sourceId then f t else t)).find?
        (fun t => t.id == sourceId) = some (f s) := by
  induction l with
  | nil => simp at h
  | cons a l ih =>
    cases hb : (a.id == sourceId) with
    | true =>
        simp only [List.find?, hb] at h
        obtain rfl : a = s := by simpa using h
        have hfb : ((f a).id == sourceId) = true := by rw [hf]; exact hb
        simp [List.find?, List.map_cons, hb, hfb]
    | false =>
        simp only [List.find?, hb] at h
        simp only [List.map_cons, hb, Bool.false_eq_true, if_false]
        simp only [List.find?, hb]
        exact ih h

/-- After `setSourcePosition` on a present id, the source is found with the
new position and all other fields unchanged. -/
theorem findSource_setSourcePosition (e : Engine) (sourceId : Nat)
    (position : Vec3 ℚ) (s : Src) (hs : e.findSource sourceId = some s) :
    (e.setSourcePosition sourceId position).findSource sourceId
      = some { s with position := position } := by
  unfold Engine.setSourcePosition
  rw [hs]
  exact find?_update e.sources sourceId (fun t => { t with position := position })
    (fun _ => rfl) s hs

/-- `stopSource` never touches `nextSourceId`. -/
theorem stopSource_nextSourceId (e : Engine) (sourceId : Nat) :
    (e.stopSource sourceId).nextSourceId = e.nextSourceId := by
  unfold Engine.stopSource
  rcases e.findSource sourceId with _ | s
  · rfl
  · dsimp only
    split <;> rfl

/-- `removeSource` never touches `nextSourceId`. -/
theorem removeSource_nextSourceId (e : Engine) (sourceId : Nat) :
    (e.removeSource sourceId).nextSourceId = e.nextSourceId := by
  unfold Engine.removeSource
  rcases e.findSource sourceId with _ | s
  · rfl
  · dsimp only
    exact stopSource_nextSourceId e sourceId

/-- `stopSource` on an id with no active buffer-source node returns the
state unchanged (early return at `if (!source || !source.node)`). -/
theorem stopSource_of_inactive (e : Engine) (sourceId : Nat)
    (h : ∀ s, e.findSource sourceId = some s → s.node = false) :
    e.stopSource sourceId = e := by
  unfold Engine.stopSource
  rcases hs : e.findSource sourceId with _ | s
  · rfl
  · dsimp only
    rw [if_pos (h s hs)]

/-- The per-update magnitude bound: `wrapHigh` output never exceeds 180. -/
theorem wrapHigh_le (az : ℝ) : wrapHigh az ≤ 180 := by
  rw [wrapHigh]
  split
  · exact wrapHigh_le (az - 360)
  · linarith [not_lt.mp (by assumption : ¬ 180 < az)]
termination_by (⌈(az - 180) / 360⌉).toNat
decreasing_by
  have h1 : (az - 360 - 180) / 360 = (az - 180) / 360 - 1 := by ring
  have h2 : (0 : ℝ) < (az - 180) / 360 := div_pos (by linarith) (by norm_num)
  have h3 : 0 < ⌈(az - 180) / 360⌉ := Int.ceil_pos.mpr h2
  rw [h1, Int.ceil_sub_one]
  omega

/-- `wrapHigh` is the identity at or below 180. -/
theorem wrapHigh_of_le {az : ℝ} (h : az ≤ 180) : wrapHigh az = az := by
  rw [wrapHigh, dif_neg (not_lt.mpr h)]

/-- `wrapLow` output is never below -180. -/
theorem wrapLow_ge (az : ℝ) : -180 ≤ wrapLow az := by
  rw [wrapLow]
  split
  · exact wrapLow_ge (az + 360)
  · linarith [not_lt.mp (by assumption : ¬ az < -180)]
termination_by (⌈(-180 - az) / 360⌉).toNat
decreasing_by
  have h1 : (-180 - (az + 360)) / 360 = (-180 - az) / 360 - 1 := by ring
  have h2 : (0 : ℝ) < (-180 - az) / 360 := div_pos (by linarith) (by norm_num)
  have h3 : 0 < ⌈(-180 - az) / 360⌉ := Int.ceil_pos.mpr h2
  rw [h1, Int.ceil_sub_one]
  omega

/-- `wrapLow` does not push values at or below 180 above 180. -/
theorem wrapLow_le (az : ℝ) (h : az ≤ 180) : wrapLow az ≤ 180 := by
  rw [wrapLow]
  split
  · exact wrapLow_le (az + 360) (by linarith [show az < -180 from by assumption])
  · exact h
termination_by (⌈(-180 - az) / 360⌉).toNat
decreasing_by
  have h1 : (-180 - (az + 360)) / 360 = (-180 - az) / 360 - 1 := by ring
  have h2 : (0 : ℝ) < (-180 - az) / 360 := div_pos (by linarith) (by norm_num)
  have h3 : 0 < ⌈(-180 - az) / 360⌉ := Int.ceil_pos.mpr h2
  rw [h1, Int.ceil_sub_one]
  omega

/-- `wrapLow` is the identity at or above -180. -/
theorem wrapLow_of_ge {az : ℝ} (h : -180 ≤ az) : wrapLow az = az := by
  rw [wrapLow, dif_neg (not_lt.mpr h)]

/-- Scaling all three components scales the magnitude by the absolute
value of the factor. -/
theorem mag_scale (a b d c : ℝ) :
    mag ⟨a * c, b * c, d * c⟩ = |c| * mag ⟨a, b, d⟩ := by
  simp only [mag]
  rw [show a * c * (a * c) + b * c * (b * c) + d * c * (d * c)
        = c ^ 2 * (a * a + b * b + d * d) by ring]
  rw [Real.sqrt_mul (sq_nonneg c), Real.sqrt_sq_eq_abs]

end Helpers

/-- C1 (amended): `setSourcePosition` is a silent no-op when the id is
unknown, but for a present id it overwrites the position regardless of the
locked flag; the lock is enforced at the interaction layer instead, where
the drag hit test never selects a locked source. -/
theorem setSourcePosition_ignores_lock (e : Engine) (sourceId : Nat) (position : Vec3 ℚ) :
    (e.findSource sourceId = none → e.setSourcePosition sourceId position = e) ∧
    (∀ s, e.findSource sourceId = some s →
      (e.setSourcePosition sourceId position).findSource sourceId
        = some { s with position := position }) ∧
    (∀ (v : Viz) (sources : List Src) (mouseX mouseY : ℚ) (t : Src),
      v.findDragTarget sources mouseX mouseY = some t → t.locked = false) := by
  refine ⟨?_, ?_, ?_⟩
  · intro h
    unfold Engine.setSourcePosition
    rw [h]
  · intro s hs
    exact Helpers.findSource_setSourcePosition e sourceId position s hs
  · intro v sources mouseX mouseY t ht
    simp only [Viz.findDragTarget] at ht
    have h2 := List.find?_some ht
    simp only [Bool.and_eq_true, Bool.not_eq_true'] at h2
    exact h2.1

/-- Witness for C1: on a concrete engine whose only source is locked, a
`setSourcePosition` call stores the new position. -/
theorem setSourcePosition_ignores_lock_witness :
    (lockedEngine.setSourcePosition 1 ⟨1, 2, 3⟩).findSource 1
      = some { lockedSrc with position := ⟨1, 2, 3⟩ } :=
  (setSourcePosition_ignores_lock lockedEngine 1 ⟨1, 2, 3⟩).2.1 lockedSrc rfl

/-- Counterexample to C1 as stated: the source is locked, yet the
`setSourcePosition` call changed its position from the origin to
`(1, 2, 3)`. -/
theorem setSourcePosition_locked_counterexample :
    lockedSrc.locked = true ∧
    ((lockedEngine.setSourcePosition 1 ⟨1, 2, 3⟩).findSource 1).map Src.position
      = some ⟨1, 2, 3⟩ ∧
    (⟨1, 2, 3⟩ : Vec3 ℚ) ≠ lockedSrc.position := by
  refine ⟨rfl, rfl, ?_⟩
  decide

/-- C2: for both reference-frame modes, any listener position, any drag
offset and nonzero scale, the drag inverse applied to the projected screen
point recovers the world point exactly; the y coordinate is carried
through unchanged. -/
theorem screen_world_round_trip (v : Viz) (hs : v.scale ≠ 0) (p : Vec3 ℚ) (offX offY : ℚ) :
    v.dragWorldPos ((v.worldToScreen p).1 + offX) ((v.worldToScreen p).2 + offY)
      offX offY p.y = p := by
  rcases p with ⟨px, py, pz⟩
  by_cases hm : v.compositionMode = true
  · simp only [Viz.worldToScreen, Viz.dragWorldPos, if_pos hm, Vec3.mk.injEq]
    refine ⟨?_, trivial, ?_⟩ <;> field_simp
  · simp only [Viz.worldToScreen, Viz.dragWorldPos, if_neg hm, Vec3.mk.injEq]
    refine ⟨?_, trivial, ?_⟩ <;> field_simp

/-- Witness for C2: a concrete round trip in composition mode at
scale 20, center (400, 300); the world point (5, 2, 3) projects to screen
(500, 240) and the drag inverse recovers it. -/
theorem screen_world_round_trip_witness :
    topdownViz.dragWorldPos 500 240 0 0 2 = ⟨5, 2, 3⟩ := by
  have h := screen_world_round_trip topdownViz (by norm_num [topdownViz]) ⟨5, 2, 3⟩ 0 0
  have he : topdownViz.worldToScreen ⟨5, 2, 3⟩ = (500, 240) := by
    norm_num [topdownViz, Viz.worldToScreen]
  rw [he] at h
  simpa using h

/-- C6: toggling the reference-frame mode changes nothing the spatializer
sees: the engine state is untouched and the relative offset fed to a
panner for any source position is unchanged; only the visualization flag
flips. -/
theorem audio_mode_independence (a : App) (position : Vec3 ℚ) :
    a.toggleCompositionMode.spatializerOffset position = a.spatializerOffset position ∧
    a.toggleCompositionMode.engine = a.engine ∧
    a.toggleCompositionMode.viz.compositionMode = !a.viz.compositionMode :=
  ⟨rfl, rfl, rfl⟩

/-- C7 (amended): a pointer-lock mouse update whose scaled yaw delta has
magnitude at most 360 keeps yaw in [0, 360) when it starts there, and its
pitch result always lies in [-90, 90]; a gamepad right-stick sample clamps
pitch into [-89, 89] (hence [-90, 90]) but adds `rx * 3` to yaw with no
wrapping at all. -/
theorem orientation_bounds (o : Orient) (deltaX deltaY rx ry : ℚ)
    (hf0 : 0 ≤ o.facing) (hf1 : o.facing < 360)
    (hd : |deltaX * mouseSensitivity| ≤ 360) :
    (0 ≤ (handleMouseMove o deltaX deltaY).facing ∧
      (handleMouseMove o deltaX deltaY).facing < 360) ∧
    (-90 ≤ (handleMouseMove o deltaX deltaY).pitch ∧
      (handleMouseMove o deltaX deltaY).pitch ≤ 90) ∧
    (-90 ≤ (gamepadLook o rx ry).pitch ∧ (gamepadLook o rx ry).pitch ≤ 90) ∧
    (gamepadLook o rx ry).facing = o.facing + rx * 3 := by
  rw [abs_le] at hd
  obtain ⟨hd1, hd2⟩ := hd
  refine ⟨?_, ?_, ?_, rfl⟩
  · simp only [handleMouseMove]
    split_ifs with h1 h2 h2 <;> constructor <;> linarith
  · simp only [handleMouseMove]
    exact ⟨le_max_left _ _, max_le (by norm_num) (min_le_left _ _)⟩
  · simp only [gamepadLook]
    exact ⟨le_trans (by norm_num) (le_max_left _ _),
      max_le (by norm_num) (le_trans (min_le_left _ _) (by norm_num))⟩

/-- Witness for C7: the amended bounds at a concrete orientation state and
concrete input deltas. -/
theorem orientation_bounds_witness :
    (0 ≤ (handleMouseMove ⟨0, 0⟩ 1 1).facing ∧
      (handleMouseMove ⟨0, 0⟩ 1 1).facing < 360) ∧
    (-90 ≤ (handleMouseMove ⟨0, 0⟩ 1 1).pitch ∧
      (handleMouseMove ⟨0, 0⟩ 1 1).pitch ≤ 90) ∧
    (-90 ≤ (gamepadLook ⟨0, 0⟩ 1 1).pitch ∧ (gamepadLook ⟨0, 0⟩ 1 1).pitch ≤ 90) ∧
    (gamepadLook ⟨0, 0⟩ 1 1).facing = (0 : ℚ) + 1 * 3 :=
  orientation_bounds ⟨0, 0⟩ 1 1 1 1 (by norm_num) (by norm_num)
    (by norm_num [mouseSensitivity, abs_le])

/-- Counterexample to C7 as stated: a gamepad right-stick sample from yaw
359 with `rx = 1` leaves yaw at 362, outside [0, 360). -/
theorem orientation_gamepad_counterexample :
    (gamepadLook ⟨359, 0⟩ 1 0).facing = 362 ∧
    ¬ (gamepadLook ⟨359, 0⟩ 1 0).facing < 360 := by
  constructor <;> norm_num [gamepadLook]

namespace Helpers

/-- A single `movePlayer` call always ends at magnitude at most the
movement radius. -/
theorem movePlayer_mag_le (playerFacing : ℝ) (p : Vec3 ℝ) (dx dy dz : ℝ) :
    mag (movePlayer playerFacing p dx dy dz) ≤ movementRadius := by
  simp only [movePlayer]
  by_cases h : movementRadius < mag (preMove playerFacing p dx dy dz)
  · rw [if_pos h]
    have h0 : 0 < mag (preMove playerFacing p dx dy dz) :=
      lt_trans (by norm_num [movementRadius]) h
    rw [mag_scale]
    have he : (⟨(preMove playerFacing p dx dy dz).x, (preMove playerFacing p dx dy dz).y,
        (preMove playerFacing p dx dy dz).z⟩ : Vec3 ℝ) = preMove playerFacing p dx dy dz := rfl
    rw [he, abs_of_pos (div_pos (by norm_num [movementRadius]) h0),
      div_mul_cancel₀ _ (ne_of_gt h0)]
  · rw [if_neg h]
    exact not_lt.mp h

/-- When the clamp triggers, the result is the pre-clamp position scaled
componentwise by the positive factor `movementRadius / distance`. -/
theorem movePlayer_clamp (playerFacing : ℝ) (p : Vec3 ℝ) (dx dy dz : ℝ)
    (h : movementRadius < mag (preMove playerFacing p dx dy dz)) :
    0 < movementRadius / mag (preMove playerFacing p dx dy dz) ∧
    movePlayer playerFacing p dx dy dz =
      ⟨(preMove playerFacing p dx dy dz).x
          * (movementRadius / mag (preMove playerFacing p dx dy dz)),
        (preMove playerFacing p dx dy dz).y
          * (movementRadius / mag (preMove playerFacing p dx dy dz)),
        (preMove playerFacing p dx dy dz).z
          * (movementRadius / mag (preMove playerFacing p dx dy dz))⟩ := by
  refine ⟨div_pos (by norm_num [movementRadius]) (lt_trans (by norm_num [movementRadius]) h), ?_⟩
  simp only [movePlayer]
  rw [if_pos h]

/-- Any nonempty sequence of `movePlayer` calls ends at magnitude at most
the movement radius. -/
theorem runMoves_mag_le : ∀ (moves : List (ℝ × ℝ × ℝ × ℝ)) (p : Vec3 ℝ), moves ≠ [] →
    mag (runMoves p moves) ≤ movementRadius := by
  intro moves
  induction moves with
  | nil => intro p h; exact absurd rfl h
  | cons m rest ih =>
    intro p _
    cases rest with
    | nil => simpa [runMoves] using movePlayer_mag_le m.1 p m.2.1 m.2.2.1 m.2.2.2
    | cons m2 r2 =>
        simp only [runMoves]
        exact ih _ (by simp)

end Helpers

/-- C3: every `movePlayer` call leaves the player within the 50-unit
movement bubble; when the clamp triggers the result is the pre-clamp
position scaled by the positive factor `movementRadius / distance`
(direction preserved); and any nonempty sequence of calls (hence, applied
to each prefix, every intermediate update) ends within the bubble. -/
theorem movement_bubble (playerFacing : ℝ) (p : Vec3 ℝ) (dx dy dz : ℝ) :
    mag (movePlayer playerFacing p dx dy dz) ≤ movementRadius ∧
    (movementRadius < mag (preMove playerFacing p dx dy dz) →
      0 < movementRadius / mag (preMove playerFacing p dx dy dz) ∧
      movePlayer playerFacing p dx dy dz =
        ⟨(preMove playerFacing p dx dy dz).x
            * (movementRadius / mag (preMove playerFacing p dx dy dz)),
          (preMove playerFacing p dx dy dz).y
            * (movementRadius / mag (preMove playerFacing p dx dy dz)),
          (preMove playerFacing p dx dy dz).z
            * (movementRadius / mag (preMove playerFacing p dx dy dz))⟩) ∧
    (∀ moves : List (ℝ × ℝ × ℝ × ℝ), moves ≠ [] →
      mag (runMoves p moves) ≤ movementRadius) :=
  ⟨Helpers.movePlayer_mag_le playerFacing p dx dy dz,
    fun h => Helpers.movePlayer_clamp playerFacing p dx dy dz h,
    fun moves hm => Helpers.runMoves_mag_le moves p hm⟩

/-- Witness for C3: starting at (60, 0, 0) with zero delta, the clamp
fires and pulls the player back to (50, 0, 0), inside the bubble. -/
theorem movement_bubble_witness :
    mag (movePlayer 0 ⟨60, 0, 0⟩ 0 0 0) ≤ movementRadius ∧
    movePlayer 0 ⟨60, 0, 0⟩ 0 0 0 = ⟨50, 0, 0⟩ := by
  have hpre : preMove 0 ⟨60, 0, 0⟩ 0 0 0 = ⟨60, 0, 0⟩ := by
    simp [preMove]
  have hmag : mag (⟨60, 0, 0⟩ : Vec3 ℝ) = 60 := by
    have h36 : (60 : ℝ) * 60 + 0 * 0 + 0 * 0 = 60 ^ 2 := by norm_num
    simp only [mag]
    rw [h36, Real.sqrt_sq (by norm_num : (0 : ℝ) ≤ 60)]
  have h := movement_bubble 0 ⟨60, 0, 0⟩ 0 0 0
  refine ⟨h.1, ?_⟩
  have h2 := h.2.1 (by rw [hpre, hmag]; norm_num [movementRadius])
  rw [hpre, hmag] at h2
  rw [h2.2]
  simp only [Vec3.mk.injEq, movementRadius]
  norm_num

/-- C4 (amended): the FOV-culling guard of `drawSource` is active exactly
when the view mode is first-person, independent of the reference-frame
mode (the `positionsLocked` read is always falsy); in top-down view no
source is ever azimuth-culled. -/
theorem fov_culling_guard (v : Viz) :
    (v.fovCullingActive = true ↔ v.viewMode = ViewMode.firstperson) ∧
    (v.viewMode = ViewMode.topdown →
      ∀ relativeX relativeZ playerFacing : ℝ,
        ¬ azimuthCulled v relativeX relativeZ playerFacing) := by
  have hg : v.fovCullingActive = true ↔ v.viewMode = ViewMode.firstperson := by
    cases hv : v.viewMode <;>
      simp [Viz.fovCullingActive, Viz.positionsLockedRead, hv]
  refine ⟨hg, ?_⟩
  intro ht relativeX relativeZ playerFacing hc
  have hfp := hg.mp hc.1
  rw [ht] at hfp
  exact ViewMode.noConfusion hfp

/-- Witness for C4: the guard is off for a concrete top-down state (so a
source straight ahead is not azimuth-culled) and on for a concrete
first-person authoring state. -/
theorem fov_culling_guard_witness :
    topdownViz.fovCullingActive = false ∧
    ¬ azimuthCulled topdownViz 0 1 0 ∧
    fpAuthoringViz.fovCullingActive = true :=
  ⟨rfl, (fov_culling_guard topdownViz).2 rfl 0 1 0,
    (fov_culling_guard fpAuthoringViz).1.mpr rfl⟩

/-- Counterexample to C4 as stated: in first-person view with authoring
mode (composition off), a source directly behind the listener is still
azimuth-culled, although the claim says no culling happens in authoring
mode. -/
theorem fov_culling_guard_counterexample :
    fpAuthoringViz.compositionMode = false ∧
    fpAuthoringViz.viewMode = ViewMode.firstperson ∧
    azimuthCulled fpAuthoringViz 0 (-1) 0 := by
  refine ⟨rfl, rfl, rfl, ?_⟩
  have hatan : atan2 0 (-1) = Real.pi := by
    unfold atan2
    rw [if_neg (by norm_num : ¬ (0 : ℝ) < -1), if_pos (by norm_num : (-1 : ℝ) < 0),
      if_pos (le_refl (0 : ℝ))]
    norm_num [Real.arctan_zero]
  have hval : azimuthDeg 0 (-1) 0 = 180 := by
    unfold azimuthDeg
    rw [hatan]
    rw [show Real.pi * (180 / Real.pi) - 0 = 180 by
      field_simp]
    rw [Helpers.wrapHigh_of_le (le_refl 180), Helpers.wrapLow_of_ge (by norm_num)]
  show fovCulls (azimuthDeg 0 (-1) 0)
  rw [fovCulls, hval]
  norm_num

/-- C5 (amended): the view-relative azimuth (atan2 of the relative offset
converted to degrees, minus the yaw, wrapped by the two loops) always lies
in the closed range [-180, 180]; under FOV culling a source survives the
azimuth test exactly when its absolute azimuth is at most 90, so azimuth
90 and -90 are visible and 90.0001 is culled. -/
theorem azimuth_fov_boundary (relativeX relativeZ playerFacing : ℝ) :
    -180 ≤ azimuthDeg relativeX relativeZ playerFacing ∧
    azimuthDeg relativeX relativeZ playerFacing ≤ 180 ∧
    (¬ fovCulls (azimuthDeg relativeX relativeZ playerFacing) ↔
      |azimuthDeg relativeX relativeZ playerFacing| ≤ 90) ∧
    ¬ fovCulls 90 ∧ ¬ fovCulls (-90) ∧ fovCulls 90.0001 := by
  refine ⟨Helpers.wrapLow_ge _, Helpers.wrapLow_le _ (Helpers.wrapHigh_le _), ?_, ?_, ?_, ?_⟩
  · simp [fovCulls, not_lt]
  · norm_num [fovCulls]
  · norm_num [fovCulls]
  · simp only [fovCulls]
    rw [abs_of_pos (by norm_num : (0 : ℝ) < 90.0001)]
    norm_num

/-- Counterexample to the half-open range in C5 as stated: a source
straight ahead in world space (atan2 degrees 0) seen under yaw 180 gets
azimuth exactly -180, which the wrap loops leave unchanged, so the
normalized azimuth is not in the half-open interval (-180, 180]. -/
theorem azimuth_range_counterexample :
    azimuthDeg 0 1 180 = -180 ∧
    azimuthDeg 0 1 180 ∉ Set.Ioc (-180 : ℝ) 180 := by
  have hatan : atan2 0 1 = 0 := by
    unfold atan2
    rw [if_pos (by norm_num : (0 : ℝ) < 1)]
    norm_num [Real.arctan_zero]
  have hval : azimuthDeg 0 1 180 = -180 := by
    unfold azimuthDeg
    rw [hatan]
    rw [show (0 : ℝ) * (180 / Real.pi) - 180 = -180 by ring]
    rw [Helpers.wrapHigh_of_le (by norm_num), Helpers.wrapLow_of_ge (le_refl (-180))]
  refine ⟨hval, ?_⟩
  rw [hval]
  simp [Set.mem_Ioc]

namespace Helpers

/-- After `stopSource` on a source with an active node, the source is found
with all node references cleared. -/
theorem findSource_stopSource_active (e : Engine) (sourceId : Nat) (s : Src)
    (hs : e.findSource sourceId = some s) (hn : s.node = true) :
    (e.stopSource sourceId).findSource sourceId
      = some { s with
               node := false
               gainNode := false
               panner := false
               isPlaying := false } := by
  unfold Engine.stopSource
  rw [hs]
  dsimp only
  rw [if_neg (by simp [hn])]
  exact find?_update e.sources sourceId
    (fun t => { t with node := false, gainNode := false, panner := false, isPlaying := false })
    (fun _ => rfl) s hs

/-- After any `stopSource` call, the source found under that id (if any)
has no active node. -/
theorem findSource_stopSource_node (e : Engine) (sourceId : Nat) :
    ∀ t, (e.stopSource sourceId).findSource sourceId = some t → t.node = false := by
  intro t ht
  rcases hs : e.findSource sourceId with _ | s
  · have h1 : e.stopSource sourceId = e :=
      stopSource_of_inactive e sourceId
        (fun u hu => by rw [hs] at hu; exact Option.noConfusion hu)
    rw [h1, hs] at ht
    exact Option.noConfusion ht
  · by_cases hn : s.node = true
    · have h1 := findSource_stopSource_active e sourceId s hs hn
      rw [h1] at ht
      rw [← Option.some.inj ht]
    · rw [Bool.not_eq_true] at hn
      have h1 : e.stopSource sourceId = e :=
        stopSource_of_inactive e sourceId
          (fun u hu => by rw [hs] at hu; rw [← Option.some.inj hu]; exact hn)
      rw [h1, hs] at ht
      rw [← Option.some.inj ht]
      exact hn

/-- Every source remaining after `removeSource` has a different id. -/
theorem removeSource_excludes (e : Engine) (sourceId : Nat) :
    ∀ s ∈ (e.removeSource sourceId).getSources, s.id ≠ sourceId := by
  intro s hmem
  unfold Engine.removeSource at hmem
  rcases hs : e.findSource sourceId with _ | t <;> rw [hs] at hmem
  · have hnone : ∀ x ∈ e.sources, ¬ x.id = sourceId := by
      simpa [Engine.findSource] using hs
    exact hnone s hmem
  · dsimp only [Engine.getSources] at hmem
    have h2 := (List.mem_filter.mp hmem).2
    simpa using h2

end Helpers

/-- C8: stopping a playback route is idempotent and a safe no-op when no
node is active; `removeSource` on an unknown id is a no-op, on a present
id it stops the route first and then deletes the entry; afterwards the
sources exclude the id, so a subsequent listener-position update issues no
panner write for it. -/
theorem remove_source_stops_first (e : Engine) (sourceId : Nat) :
    ((e.stopSource sourceId).stopSource sourceId = e.stopSource sourceId) ∧
    ((∀ s, e.findSource sourceId = some s → s.node = false) → e.stopSource sourceId = e) ∧
    (e.findSource sourceId = none → e.removeSource sourceId = e) ∧
    (e.findSource sourceId ≠ none →
      (e.removeSource sourceId).sources
        = (e.stopSource sourceId).sources.filter (fun s => !(s.id == sourceId))) ∧
    (∀ s ∈ (e.removeSource sourceId).getSources, s.id ≠ sourceId) ∧
    (∀ position : Vec3 ℚ,
      sourceId ∉ ((e.removeSource sourceId).updateListenerPosition position).2.map Prod.fst) := by
  refine ⟨Helpers.stopSource_of_inactive _ sourceId (Helpers.findSource_stopSource_node e sourceId),
    Helpers.stopSource_of_inactive e sourceId, ?_, ?_, Helpers.removeSource_excludes e sourceId, ?_⟩
  · intro h
    unfold Engine.removeSource
    rw [h]
  · intro h
    unfold Engine.removeSource
    rcases hs : e.findSource sourceId with _ | s
    · exact absurd hs h
    · rfl
  · intro position hmem
    simp only [Engine.updateListenerPosition, List.map_map, List.mem_map,
      Function.comp] at hmem
    obtain ⟨s, hsmem, hsid⟩ := hmem
    exact Helpers.removeSource_excludes e sourceId s (List.mem_filter.mp hsmem).1 hsid

/-- Witness for C8: stopping the inactive route of a concrete engine is a
no-op, removing an unknown id is a no-op, and after removing the playing
source id 1 no remaining source carries that id. -/
theorem remove_source_stops_first_witness :
    lockedEngine.stopSource 1 = lockedEngine ∧
    playingEngine.removeSource 7 = playingEngine ∧
    (∀ s ∈ (playingEngine.removeSource 1).getSources, s.id ≠ 1) := by
  refine ⟨?_, (remove_source_stops_first playingEngine 7).2.2.1 rfl,
    (remove_source_stops_first playingEngine 1).2.2.2.2.1⟩
  refine (remove_source_stops_first lockedEngine 1).2.1 ?_
  intro s h
  rw [← Option.some.inj h]
  rfl

/-- C9: submitting the coordinate fields for a present source rejects the
update with an alert and leaves the engine untouched when any axis fails
to parse, and otherwise writes all three axes through a single
`setSourcePosition` call. -/
theorem coordinate_entry_atomic (e : Engine) (sourceId : Nat) (s : Src)
    (hs : e.findSource sourceId = some s) (px py pz : Option ℚ) :
    ((px = none ∨ py = none ∨ pz = none) →
      submitSourceCoordinates e sourceId px py pz = (e, true)) ∧
    (∀ x y z, px = some x → py = some y → pz = some z →
      submitSourceCoordinates e sourceId px py pz
          = (e.setSourcePosition sourceId ⟨x, y, z⟩, false) ∧
        (e.setSourcePosition sourceId ⟨x, y, z⟩).findSource sourceId
          = some { s with position := ⟨x, y, z⟩ }) := by
  constructor
  · intro h
    unfold submitSourceCoordinates
    rw [hs]
    rcases px with _ | x <;> rcases py with _ | y <;> rcases pz with _ | z <;>
      first
        | rfl
        | (rcases h with h | h | h <;> exact Option.noConfusion h)
  · intro x y z hx hy hz
    subst hx; subst hy; subst hz
    refine ⟨?_, Helpers.findSource_setSourcePosition e sourceId ⟨x, y, z⟩ s hs⟩
    unfold submitSourceCoordinates
    rw [hs]

/-- Witness for C9: on a concrete engine, a failed middle axis leaves the
engine unchanged with the alert shown, and three parsed values produce
exactly one position write. -/
theorem coordinate_entry_atomic_witness :
    submitSourceCoordinates lockedEngine 1 (some 4) none (some 6) = (lockedEngine, true) ∧
    submitSourceCoordinates lockedEngine 1 (some 4) (some 5) (some 6)
      = (lockedEngine.setSourcePosition 1 ⟨4, 5, 6⟩, false) := by
  constructor
  · exact (coordinate_entry_atomic lockedEngine 1 lockedSrc rfl (some 4) none (some 6)).1
      (Or.inr (Or.inl rfl))
  · exact ((coordinate_entry_atomic lockedEngine 1 lockedSrc rfl
      (some 4) (some 5) (some 6)).2 4 5 6 rfl rfl rfl).1

namespace Helpers

/-- Invariant of `runOps`: the ids returned by the creates are strictly
increasing, and all are at least the starting `nextSourceId`. -/
theorem runOps_spec : ∀ (ops : List SceneOp) (e : Engine),
    List.Pairwise (· < ·) (runOps e ops).2 ∧
    ∀ i ∈ (runOps e ops).2, e.nextSourceId ≤ i := by
  intro ops
  induction ops with
  | nil => intro e; simp [runOps]
  | cons op rest ih =>
    intro e
    cases op with
    | create n p =>
        obtain ⟨h1, h2⟩ := ih (e.createSource () n p).1
        have hn : (e.createSource () n p).1.nextSourceId = e.nextSourceId + 1 := rfl
        have hv : (e.createSource () n p).2 = e.nextSourceId := rfl
        simp only [runOps]
        constructor
        · refine List.Pairwise.cons ?_ h1
          intro i hi
          have hle := h2 i hi
          rw [hn] at hle
          rw [hv]
          omega
        · intro i hi
          rcases List.mem_cons.mp hi with h | h
          · rw [h, hv]
          · have hle := h2 i h
            rw [hn] at hle
            omega
    | remove sourceId =>
        obtain ⟨h1, h2⟩ := ih (e.removeSource sourceId)
        simp only [runOps]
        refine ⟨h1, ?_⟩
        intro i hi
        have hle := h2 i hi
        rw [removeSource_nextSourceId] at hle
        exact hle

end Helpers

/-- C10: starting from the freshly constructed engine, any sequence of
`createSource` and `removeSource` operations returns strictly increasing
ids from its creates, so ids are unique and never reused even after a
removal. -/
theorem source_ids_monotone (ops : List SceneOp) :
    List.Pairwise (· < ·) (runOps Engine.init ops).2 ∧
    (runOps Engine.init ops).2.Nodup :=
  ⟨(Helpers.runOps_spec ops Engine.init).1,
    List.Pairwise.imp (fun h => ne_of_lt h) (Helpers.runOps_spec ops Engine.init).1⟩
